import Mathlib

/-
Verification of the epoch-driven consensus engine of the subnet-template
repository: a shallow embedding of `src/subnet/consensus/consensus.py` and
`src/subnet/utils/hypertensor/subnet_info_tracker_v{3,4}.py`, with theorems
about the engine's polling, attestation, proposal, activation and tracker
caching behaviour.

Conventions of the embedding:
- Python machine values returned by RPC calls that the code compares both
  with `None` and with the string `"None"` are modelled by `PyVal`.
- Loops are modelled as fuel-indexed structural recursions over an
  environment of RPC oracles (one function per call site, indexed by the
  number of times the call has been made); the returned record counts the
  observable effects (polls, sleeps, attest submissions, failed receipts).
- Python floats (`percent_complete`, `0.15`) are modelled as exact
  rationals; the properties proved (strictness of comparisons) do not
  depend on the rounding of the literals.
- Helpers imported by consensus.py from modules that are not part of the
  sources (`compare_consensus_data`, `did_node_attest`,
  `is_validator_or_attestor`, the `SubnetNodeClass` enum) are modelled from
  the specification and marked as such in their doc comments.
-/

/-- A Python scalar as seen at the RPC boundary: `None`, an int, or a string.
The source compares such values both with `None` (identity) and with the
literal string `"None"`. -/
inductive PyVal where
  | none
  | int (n : Int)
  | str (s : String)
deriving DecidableEq, Repr

/-- Python `v is not None`. -/
def pyIsNotNone : PyVal → Bool
  | PyVal.none => false
  | _ => true

/-- Python `v != "None"`: false only when `v` is exactly the string "None";
comparing `None` or an int with a string is always unequal in Python. -/
def pyNeStrNone : PyVal → Bool
  | PyVal.str s => decide (s ≠ "None")
  | _ => true

/-- The break condition of the validator-election poll loop,
consensus.py line 351: `if validator is not None or validator != "None"`. -/
def validatorPollBreak (v : PyVal) : Bool :=
  pyIsNotNone v || pyNeStrNone v

/-- Oracle environment for the poll loop in `Consensus.run_consensus`
(lines 341-358): per loop turn, the stop flag, the result of
`get_rewards_validator`, and the epoch observed from `get_subnet_epoch_data`. -/
structure PollEnv where
  stopAt : Nat → Bool
  validatorAt : Nat → PyVal
  epochAt : Nat → Int

/-- Outcome of the poll loop: the final `validator` variable, the number of
`get_rewards_validator` calls made, and the number of `BLOCK_SECS` sleeps. -/
structure PollResult where
  validator : PyVal
  polls : Nat
  sleeps : Nat
deriving DecidableEq, Repr

/-- The poll loop of `Consensus.run_consensus`, consensus.py lines 341-356:
`while not stop: validator = get_rewards_validator(...); read epoch;
if epoch rolled: validator = None; break;
if validator is not None or validator != "None": break; sleep(BLOCK_SECS)`.
Fuel-indexed; `turn` counts completed polls, `v` is the current value of the
`validator` variable. -/
def pollValidator (env : PollEnv) (currentEpoch : Int) :
    Nat → Nat → Nat → PyVal → PollResult
  | 0, turn, sleeps, v => ⟨v, turn, sleeps⟩
  | Nat.succ fuel, turn, sleeps, v =>
    if env.stopAt turn then ⟨v, turn, sleeps⟩
    else
      let v2 := env.validatorAt turn
      if env.epochAt turn ≠ currentEpoch then ⟨PyVal.none, turn + 1, sleeps⟩
      else if validatorPollBreak v2 then ⟨v2, turn + 1, sleeps⟩
      else pollValidator env currentEpoch fuel (turn + 1) (sleeps + 1) v2

/-- The break condition holds for every value `get_rewards_validator` can
return: the `or` in line 351 makes the test a tautology (for `None` the
right disjunct `None != "None"` is true; for anything else the left
disjunct is), so the loop can never reach its sleep. -/
theorem validatorPollBreak_total (v : PyVal) : validatorPollBreak v = true := by
  cases v with
  | none => rfl
  | int n => rfl
  | str s => simp [validatorPollBreak, pyIsNotNone]

/-- The on-chain consensus-data record published by the elected validator:
score vector `data` over subnet node ids and the set of node ids that have
attested (`SubnetNodeConsensusData` entries flattened to id-score pairs). -/
structure ConsensusRecord where
  validator_id : Int
  data : List (Int × Int)
  attests : List Int
deriving DecidableEq, Repr

/-- Modelled from the spec: `compare_consensus_data` is imported by
consensus.py from `subnet.consensus.utils`, which is not among the sources.
Per spec section 4.6 two score vectors match (value `1.0`) exactly when they
are the same multiset of `(subnet_node_id, score)` pairs; any other outcome
is abstracted as `0`. -/
def compare_consensus_data (my_data validator_data : List (Int × Int)) : ℚ :=
  if Multiset.ofList my_data = Multiset.ofList validator_data then 1 else 0

/-- Modelled from the spec: `did_node_attest` is imported by consensus.py
from `subnet.consensus.utils`, which is not among the sources. Per spec
section 4.7 the already-attested check is membership of the node's id in
the `attests` field of the consensus-data record. -/
def did_node_attest (subnet_node_id : Int) (consensus_data : ConsensusRecord) : Bool :=
  decide (subnet_node_id ∈ consensus_data.attests)

/-- Oracle environment for the attestor loop of `Consensus.run_consensus`
(lines 404-484): the stop flag and epoch data per loop turn, the result of
the k-th `get_consensus_data_formatted` call, the (constant, checked once)
result of `is_validator_or_attestor`, the `is_success` flag of the k-th
`attest` extrinsic, and whether the chain client is the mock. -/
structure AttestorEnv where
  stopAt : Nat → Bool
  fetchAt : Nat → Option ConsensusRecord
  epochAt : Nat → Int
  pctAt : Nat → ℚ
  isVoA : Bool
  receiptAt : Nat → Bool
  isMock : Bool

/-- Mutable state of the attestor loop: the cached consensus-data record
(`consensus_data`, fetched only while `None`), the number of fetches, the
`_is_validator_or_attestor` flag, and counters of attest submissions,
failed receipts, `BLOCK_SECS` sleeps, and completed turns. -/
structure AttestorState where
  cache : Option ConsensusRecord
  fetches : Nat
  voaOk : Bool
  attests : Nat
  fails : Nat
  sleeps : Nat
  turn : Nat
deriving DecidableEq, Repr

/-- Why the attestor loop ended. -/
inductive AttestorExit where
  | fuelOut
  | stopSet
  | epochOrCutoff
  | notEligible
  | alreadyAttested
  | mockReturn
  | receiptOk
  | mismatch
deriving DecidableEq, Repr

/-- Final state and exit reason of the attestor loop. -/
structure AttestorResult where
  final : AttestorState
  reason : AttestorExit
deriving DecidableEq, Repr

/-- The early-exit test of the attestor loop, consensus.py lines 421-424:
`if _current_epoch != current_epoch or epoch_data.percent_complete > 0.15`.
The comparison with the late-epoch cut-off `0.15` is strict. -/
def attestorCutoff (currentEpoch obsEpoch : Int) (pct : ℚ) : Bool :=
  decide (obsEpoch ≠ currentEpoch) || decide (pct > 15 / 100)

/-- The attestor branch of `Consensus.run_consensus`, consensus.py lines
408-484, as a fuel-indexed loop. Each turn: fetch the consensus-data record
only while the cached copy is `None`; read epoch data and break on rollover
or the `0.15` cut-off; sleep and retry while there is no record; on a full
multiset match check eligibility once, break if the record already lists
this node in `attests`, otherwise submit `attest` — returning immediately
on the mock client, breaking on a successful receipt, and sleeping then
retrying on a failed one; on a mismatch break (abstain). -/
def attestorLoop (env : AttestorEnv) (selfId : Int) (scores : List (Int × Int))
    (currentEpoch : Int) : Nat → AttestorState → AttestorResult
  | 0, s => ⟨s, AttestorExit.fuelOut⟩
  | Nat.succ fuel, s =>
    if env.stopAt s.turn then ⟨s, AttestorExit.stopSet⟩
    else
      let s1 :=
        match s.cache with
        | none => { s with cache := env.fetchAt s.fetches, fetches := s.fetches + 1 }
        | some _ => s
      if attestorCutoff currentEpoch (env.epochAt s.turn) (env.pctAt s.turn) then
        ⟨s1, AttestorExit.epochOrCutoff⟩
      else
        match s1.cache with
        | none =>
          attestorLoop env selfId scores currentEpoch fuel
            { s1 with sleeps := s1.sleeps + 1, turn := s1.turn + 1 }
        | some r =>
          if compare_consensus_data scores r.data = 1 then
            if !s1.voaOk && !env.isVoA then ⟨s1, AttestorExit.notEligible⟩
            else
              let s2 := { s1 with voaOk := true }
              if did_node_attest selfId r then ⟨s2, AttestorExit.alreadyAttested⟩
              else
                let s3 := { s2 with attests := s2.attests + 1 }
                if env.isMock then ⟨s3, AttestorExit.mockReturn⟩
                else if env.receiptAt s2.attests then ⟨s3, AttestorExit.receiptOk⟩
                else
                  attestorLoop env selfId scores currentEpoch fuel
                    { s3 with fails := s3.fails + 1, sleeps := s3.sleeps + 1, turn := s3.turn + 1 }
          else ⟨s1, AttestorExit.mismatch⟩

/-- The attestor loop's initial state, consensus.py lines 408-409:
`consensus_data = None`, `_is_validator_or_attestor = False`, nothing yet
fetched, attested or slept. -/
def attestorInit : AttestorState :=
  ⟨none, 0, false, 0, 0, 0, 0⟩

/-- An attestor environment that never stops, never has data, never rolls
over, and sits exactly at the cut-off fraction. -/
def quietAttestorEnv : AttestorEnv :=
  ⟨fun _ => false, fun _ => none, fun _ => 5, fun _ => 15 / 100, true, fun _ => true, false⟩

/-- A node record as returned by `get_min_class_subnet_nodes_formatted`:
only the fields `Consensus.get_scores` reads. Peer ids are modelled as
strings; the `PeerID.from_base58` conversion is the identity here. -/
structure ChainNode where
  subnet_node_id : Int
  peer_id : String
deriving DecidableEq, Repr

/-- The unit score submitted by the default scoring path,
consensus.py line 115: `int(1e18)`. The Python float `1e18` is exactly
`10^18` (it is below `2^60` and a multiple of a representable power), so
the conversion to int is exact. -/
def unitScore : Int := 10 ^ 18

/-- `Consensus.get_scores`, consensus.py lines 74-119: read the locally
observed DHT peer set, return `[]` when no chain client is present,
otherwise score every node of the Included-class chain query whose peer id
is also observed in the DHT with the unit score. `included` stands for the
result of `get_min_class_subnet_nodes_formatted(subnet_id, epoch, Included)`
and `dhtPeers` for the peer ids found under the DHT key `b"node"`. -/
def get_scores (hypertensorPresent : Bool) (dhtPeers : List String)
    (included : List ChainNode) : List (Int × Int) :=
  if !hypertensorPresent then []
  else
    (included.filter fun n => decide (n.peer_id ∈ dhtPeers)).map
      fun n => (n.subnet_node_id, unitScore)

/-- Oracle environment for one `Consensus.run_consensus` iteration:
the inputs of `get_scores`, the poll-loop oracles, the result of the
validator branch's `get_consensus_data_formatted` read, and the attestor
branch's oracles. `includedNodesAt e` is the chain's Included-class node
list when queried at epoch argument `e`. -/
structure ConsensusEnv where
  hypertensorPresent : Bool
  dhtPeers : List String
  includedNodesAt : Int → List ChainNode
  pollEnv : PollEnv
  validatorConsensusData : Option ConsensusRecord
  attestorEnv : AttestorEnv

/-- The scores computed at the top of `run_consensus`, consensus.py
line 336: `scores = self.get_scores(current_epoch - 1)` — the Included
query is made one epoch behind the iteration's epoch. -/
def consensusScores (env : ConsensusEnv) (currentEpoch : Int) : List (Int × Int) :=
  get_scores env.hypertensorPresent env.dhtPeers (env.includedNodesAt (currentEpoch - 1))

/-- The externally visible outcome of one `run_consensus` iteration. -/
inductive ConsensusAction where
  | aborted
  | validatorSkip
  | validatorPropose (data : List (Int × Int))
  | attestorRun (r : AttestorResult)
deriving DecidableEq, Repr

/-- Number of `propose_attestation` extrinsics submitted by an iteration. -/
def ConsensusAction.proposeCalls : ConsensusAction → Nat
  | ConsensusAction.validatorPropose _ => 1
  | _ => 0

/-- One iteration of `Consensus.run_consensus`, consensus.py lines 315-484:
compute scores for `current_epoch - 1`; run the validator poll loop; return
with no on-chain write when it ended with `None`; in the validator branch
skip when a consensus-data record already exists and otherwise submit
`propose_attestation` with the scores (the source's `len(scores) == 0`
split executes the identical call in both arms); otherwise run the attestor
loop. -/
def runConsensus (env : ConsensusEnv) (selfId : Int) (currentEpoch : Int)
    (fuel : Nat) : ConsensusAction :=
  let scores := consensusScores env currentEpoch
  let pr := pollValidator env.pollEnv currentEpoch fuel 0 0 PyVal.none
  match pr.validator with
  | PyVal.none => ConsensusAction.aborted
  | v =>
    if v = PyVal.int selfId then
      match env.validatorConsensusData with
      | some _ => ConsensusAction.validatorSkip
      | none =>
        if scores.length = 0 then ConsensusAction.validatorPropose scores
        else ConsensusAction.validatorPropose scores
    else
      ConsensusAction.attestorRun
        (attestorLoop env.attestorEnv selfId scores currentEpoch fuel attestorInit)

/-- A poll environment whose first poll already returns the elected
validator id 1, with no stop and no rollover. -/
def constPollEnv : PollEnv :=
  ⟨fun _ => false, fun _ => PyVal.int 1, fun _ => 5⟩

/-- C3. If the node is the elected validator for epoch E and its scores for
E−1 are computed, the iteration attempts exactly one `propose_attestation`
— with the computed score vector as payload, an empty vector submitted the
same way as a non-empty one — unless a consensus-data record for the epoch
already exists, in which case it attempts none. -/
theorem c3_validator_single_propose (env : ConsensusEnv) (selfId E : Int) (fuel : Nat)
    (hv : (pollValidator env.pollEnv E fuel 0 0 PyVal.none).validator = PyVal.int selfId) :
    (env.validatorConsensusData = none →
      runConsensus env selfId E fuel
          = ConsensusAction.validatorPropose (consensusScores env E) ∧
      (runConsensus env selfId E fuel).proposeCalls = 1) ∧
    (∀ r, env.validatorConsensusData = some r →
      runConsensus env selfId E fuel = ConsensusAction.validatorSkip ∧
      (runConsensus env selfId E fuel).proposeCalls = 0) := by
  constructor
  · intro hnone
    have hrun : runConsensus env selfId E fuel
        = ConsensusAction.validatorPropose (consensusScores env E) := by
      simp [runConsensus, hv, hnone]
    exact ⟨hrun, by rw [hrun]; rfl⟩
  · intro r hsome
    have hrun : runConsensus env selfId E fuel = ConsensusAction.validatorSkip := by
      simp [runConsensus, hv, hsome]
    exact ⟨hrun, by rw [hrun]; rfl⟩

/-- Environment for the C3 witness: this node (id 1) is elected at once and
no record exists yet. -/
def c3Env : ConsensusEnv :=
  ⟨true, ["pa"], fun _ => [⟨1, "pa"⟩], constPollEnv, none, quietAttestorEnv⟩

/-- Witness for C3 at a concrete environment. -/
theorem c3_validator_single_propose_witness :
    runConsensus c3Env 1 5 4 = ConsensusAction.validatorPropose (consensusScores c3Env 5) ∧
    (runConsensus c3Env 1 5 4).proposeCalls = 1 :=
  (c3_validator_single_propose c3Env 1 5 4 rfl).1 rfl

/-- C7. The default scoring path, invoked each iteration with epoch
argument E−1, assigns the unit score `10^18` to exactly those
Included-class subnet nodes returned by the chain for the queried epoch
whose peer id also appears in the locally observed DHT peer set, and to no
other nodes. -/
theorem c7_default_scores_unit_for_dht_included (env : ConsensusEnv) (E : Int)
    (h : env.hypertensorPresent = true) (p : Int × Int) :
    (p ∈ consensusScores env E ↔
      ∃ n, n ∈ env.includedNodesAt (E - 1) ∧ n.peer_id ∈ env.dhtPeers ∧
        p = (n.subnet_node_id, unitScore)) ∧
    unitScore = 10 ^ 18 := by
  refine ⟨?_, rfl⟩
  unfold consensusScores get_scores
  rw [h]
  simp only [Bool.not_true, Bool.false_eq_true, if_false, List.mem_map, List.mem_filter,
    decide_eq_true_eq]
  constructor
  · rintro ⟨n, ⟨hn, hd⟩, hp⟩
    exact ⟨n, hn, hd, hp.symm⟩
  · rintro ⟨n, hn, hd, hp⟩
    exact ⟨n, ⟨hn, hd⟩, hp.symm⟩

/-- Environment for the C7 witness: node 1 is on-chain and in the DHT,
node 2 is on-chain only. -/
def c7Env : ConsensusEnv :=
  ⟨true, ["pa", "pb"], fun _ => [⟨1, "pa"⟩, ⟨2, "px"⟩], constPollEnv, none, quietAttestorEnv⟩

/-- Witness for C7 at a concrete environment and score pair. -/
theorem c7_default_scores_unit_for_dht_included_witness :
    ((1, unitScore) ∈ consensusScores c7Env 5 ↔
      ∃ n, n ∈ c7Env.includedNodesAt (5 - 1) ∧ n.peer_id ∈ c7Env.dhtPeers ∧
        ((1 : Int), unitScore) = (n.subnet_node_id, unitScore)) ∧
    unitScore = 10 ^ 18 :=
  c7_default_scores_unit_for_dht_included c7Env 5 rfl (1, unitScore)

/-- Result of the S0 loop's `get_formatted_subnet_info` call: the subnet
was not found (`None`), or found with an on-chain state string. -/
inductive SubnetInfoRes where
  | notFound
  | found (state : String)
deriving DecidableEq, Repr

/-- How the S0 activation loop ended. The `while not self.stop.is_set()`
guard is subsumed by the fuel bound: a set stop flag is a turn budget of 0. -/
inductive ActivateOutcome where
  | fuelOut
  | shutdown
  | active
deriving DecidableEq, Repr

/-- `max_errors` of `Consensus.run_activate_subnet`, consensus.py line 138. -/
def maxErrors : Nat := 3

/-- The per-epoch body of `Consensus.run_activate_subnet`, consensus.py
lines 140-198, with the subnet slot already resolved (the slot-fetch branch
of lines 142-159 only runs while the slot is unknown and touches no state
this loop reads). `env t` gives the epoch and the `get_formatted_subnet_info`
result observed on loop turn `t`. On a turn whose epoch differs from
`last_epoch`: a `NotFound` shuts the engine down when `errors_count >
max_errors` and otherwise increments `errors_count`; a found subnet with
state `"Active"` breaks with success; any other found state falls through.
`last_epoch` is then set and the loop sleeps to the next epoch. The second
component of the result is the final `errors_count` — it is never reset. -/
def activateLoop (env : Nat → Int × SubnetInfoRes) :
    Nat → Nat → Option Int → Nat → ActivateOutcome × Nat
  | 0, _, _, errs => (ActivateOutcome.fuelOut, errs)
  | Nat.succ fuel, turn, lastEpoch, errs =>
    let ob := env turn
    if some ob.1 ≠ lastEpoch then
      match ob.2 with
      | SubnetInfoRes.notFound =>
        if errs > maxErrors then (ActivateOutcome.shutdown, errs)
        else activateLoop env fuel (turn + 1) (some ob.1) (errs + 1)
      | SubnetInfoRes.found st =>
        if st = "Active" then (ActivateOutcome.active, errs)
        else activateLoop env fuel (turn + 1) (some ob.1) errs
    else activateLoop env fuel (turn + 1) lastEpoch errs

/-- Modelled from the spec: the `SubnetNodeClass` enum lives in
`subnet.hypertensor.chain_functions`, which is not among the sources.
Spec section 3 fixes the classification lattice as the total order
`Deactivated < Registered < Idle < Included < Validator`. -/
inductive NodeClass where
  | Deactivated
  | Registered
  | Idle
  | Included
  | Validator
deriving DecidableEq, Repr

/-- The `.value` of a classification, following the spec's total order. -/
def NodeClass.value : NodeClass → Nat
  | NodeClass.Deactivated => 0
  | NodeClass.Registered => 1
  | NodeClass.Idle => 2
  | NodeClass.Included => 3
  | NodeClass.Validator => 4

/-- A tracker node record: the fields the tracker's queries read.
`node_class` is the result of `subnet_node_class_to_enum` on
`classification["node_class"]`; `start_epoch` is
`classification["start_epoch"]`. -/
structure SubnetNodeInfo where
  subnet_node_id : Int
  peer_id : String
  node_class : NodeClass
  start_epoch : Int
deriving DecidableEq, Repr

/-- Epoch data as cached by the tracker (`EpochData` of chain_functions):
the fields the tracker reads. Times and fractions are exact rationals. -/
structure EpochData where
  epoch : Int
  seconds_remaining : ℚ
  percent_complete : ℚ
deriving DecidableEq, Repr

/-- The part of the tracker's cache that `get_nodes` reads:
`self.nodes` and `self.epoch_data`, each possibly not yet populated. -/
structure TrackerCache where
  nodes : Option (List SubnetNodeInfo)
  epoch_data : Option EpochData
deriving DecidableEq, Repr

/-- The shared read path of `SubnetInfoTracker.get_nodes`
(subnet_info_tracker_v4.py lines 227-241 and the force-less part of
subnet_info_tracker_v3.py lines 141-158): return `[]` when `self.nodes` or
`self.epoch_data` is unpopulated, default `start_epoch` to the cached
current epoch, and filter the cached nodes by
`node_class.value >= classification.value and start_epoch <= requested`. -/
def get_nodes (c : TrackerCache) (classification : NodeClass)
    (start_epoch : Option Int) : List SubnetNodeInfo :=
  match c.nodes, c.epoch_data with
  | none, _ => []
  | _, none => []
  | some ns, some ed =>
    let se := start_epoch.getD ed.epoch
    ns.filter fun n =>
      decide (classification.value ≤ n.node_class.value) && decide (n.start_epoch ≤ se)

/-- Result of a tracker query together with the number of RPC refresh
sequences (`_update_data`) it triggered. -/
structure GetNodesResult where
  nodes : List SubnetNodeInfo
  rpcRefreshes : Nat
deriving DecidableEq, Repr

/-- v4 `get_nodes` (subnet_info_tracker_v4.py lines 227-241): the `force`
parameter is accepted and ignored — the threaded tracker refreshes
autonomously, so the call is always a pure cache read with no RPC. -/
def get_nodes_v4 (c : TrackerCache) (classification : NodeClass)
    (start_epoch : Option Int) (force : Bool) : GetNodesResult :=
  ⟨get_nodes c classification start_epoch, 0⟩

/-- v3 `get_nodes` (subnet_info_tracker_v3.py lines 141-158): when `force`
is set the method first awaits `_update_data()` — a full RPC refresh — and
then reads whatever cache that refresh produced (`refreshed`); without
`force` it is the pure cache read. -/
def get_nodes_v3 (c refreshed : TrackerCache) (classification : NodeClass)
    (start_epoch : Option Int) (force : Bool) : GetNodesResult :=
  if force then ⟨get_nodes refreshed classification start_epoch, 1⟩
  else ⟨get_nodes c classification start_epoch, 0⟩

/-- The tracker's `nodes_v2` cache: a finite map from epoch to the node
snapshot taken at that epoch, as an association list with Python dict
semantics (assignment replaces, `pop` removes). -/
abbrev NodesMap := List (Int × List SubnetNodeInfo)

/-- Python `d.get(k)`. -/
def dictGet (m : NodesMap) (k : Int) : Option (List SubnetNodeInfo) :=
  match m.find? fun p => decide (p.1 = k) with
  | some p => some p.2
  | none => none

/-- Python `d[k] = v`: replace in place, or append a fresh key. -/
def dictSet (m : NodesMap) (k : Int) (v : List SubnetNodeInfo) : NodesMap :=
  if m.any fun p => decide (p.1 = k) then
    m.map fun p => if p.1 = k then (k, v) else p
  else m ++ [(k, v)]

/-- Python `d.pop(k)`. -/
def dictPop (m : NodesMap) (k : Int) : NodesMap :=
  m.filter fun p => !decide (p.1 = k)

/-- `SubnetInfoTracker.update_nodes` (subnet_info_tracker_v4.py lines
179-193; subnet_info_tracker_v3.py lines 80-96 is the same cache logic):
with `epoch` the cached `self.epoch_data.epoch` and `fetched` the result of
`get_subnet_nodes_info_formatted`, store a non-`None` non-empty snapshot
under `epoch`, then evict the entry at `epoch - 2` — and only that entry —
when `self.nodes_v2.get(epoch - 2)` is truthy (a non-empty list). -/
def update_nodes (epoch : Int) (fetched : Option (List SubnetNodeInfo))
    (m : NodesMap) : NodesMap :=
  let m1 :=
    match fetched with
    | some ns => if ns.length > 0 then dictSet m epoch ns else m
    | none => m
  match dictGet m1 (epoch - 2) with
  | some ns => if ns.length > 0 then dictPop m1 (epoch - 2) else m1
  | none => m1

/-- Once the attestor loop has a cached consensus-data record, the record
never changes for the rest of the iteration and no further fetch is made:
the fetch at the top of each turn is guarded by `consensus_data is None`. -/
theorem attestor_cache_stable (env : AttestorEnv) (selfId : Int)
    (scores : List (Int × Int)) (E : Int) :
    ∀ (fuel : Nat) (s : AttestorState) (r : ConsensusRecord), s.cache = some r →
      (attestorLoop env selfId scores E fuel s).final.cache = some r ∧
      (attestorLoop env selfId scores E fuel s).final.fetches = s.fetches := by
  intro fuel
  induction fuel with
  | zero =>
    intro s r h
    exact ⟨h, rfl⟩
  | succ fuel ih =>
    intro s r h
    simp only [attestorLoop, h]
    split
    · exact ⟨h, rfl⟩
    · split
      · exact ⟨h, rfl⟩
      · split
        · split
          · exact ⟨h, rfl⟩
          · split
            · exact ⟨rfl, rfl⟩
            · split
              · exact ⟨rfl, rfl⟩
              · split
                · exact ⟨rfl, rfl⟩
                · exact ih _ r rfl
        · exact ⟨h, rfl⟩

/-- Each attest submission beyond the first is preceded by a failed
receipt: whenever a state with as many submissions as failures enters the
loop, it leaves with at most one submission more than its failures. -/
theorem attestor_retry_bound (env : AttestorEnv) (selfId : Int)
    (scores : List (Int × Int)) (E : Int) :
    ∀ (fuel : Nat) (s : AttestorState), s.attests = s.fails →
      (attestorLoop env selfId scores E fuel s).final.attests ≤
        (attestorLoop env selfId scores E fuel s).final.fails + 1 := by
  intro fuel
  induction fuel with
  | zero =>
    intro s h
    dsimp only [attestorLoop]
    omega
  | succ fuel ih =>
    intro s h
    cases hc : s.cache with
    | none =>
      simp only [attestorLoop, hc]
      split
      · dsimp only; omega
      · split
        · dsimp only; omega
        · split
          · exact ih _ h
          · split
            · split
              · dsimp only; omega
              · split
                · dsimp only; omega
                · split
                  · dsimp only; omega
                  · split
                    · dsimp only; omega
                    · exact ih _ (by dsimp only; omega)
            · dsimp only; omega
    | some r =>
      simp only [attestorLoop, hc]
      split
      · dsimp only; omega
      · split
        · dsimp only; omega
        · split
          · split
            · dsimp only; omega
            · split
              · dsimp only; omega
              · split
                · dsimp only; omega
                · split
                  · dsimp only; omega
                  · refine ih _ ?_
                    show s.attests + 1 = s.fails + 1
                    omega
          · dsimp only; omega

/-- When every `attest` receipt reports success, the loop submits at most
one attest beyond what the entering state already counts: the first
successful receipt breaks the loop. -/
theorem attestor_success_bound (env : AttestorEnv) (selfId : Int)
    (scores : List (Int × Int)) (E : Int) (hr : ∀ k, env.receiptAt k = true) :
    ∀ (fuel : Nat) (s : AttestorState),
      (attestorLoop env selfId scores E fuel s).final.attests ≤ s.attests + 1 := by
  intro fuel
  induction fuel with
  | zero =>
    intro s
    dsimp only [attestorLoop]
    omega
  | succ fuel ih =>
    intro s
    cases hc : s.cache with
    | none =>
      simp only [attestorLoop, hc]
      split
      · dsimp only; omega
      · split
        · dsimp only; omega
        · split
          · exact ih _
          · split
            · split
              · dsimp only; omega
              · split
                · dsimp only; omega
                · split
                  · dsimp only; omega
                  · split
                    · dsimp only; omega
                    · exact absurd (hr _) (by assumption)
            · dsimp only; omega
    | some r =>
      simp only [attestorLoop, hc]
      split
      · dsimp only; omega
      · split
        · dsimp only; omega
        · split
          · split
            · dsimp only; omega
            · split
              · dsimp only; omega
              · split
                · dsimp only; omega
                · split
                  · dsimp only; omega
                  · exact absurd (hr _) (by assumption)
          · dsimp only; omega

/-- When every consensus-data record the chain can return already lists
this node among its attestors, the loop never submits an attest: the
`did_node_attest` guard breaks out before the `attest` call. -/
theorem attestor_skip_when_attested (env : AttestorEnv) (selfId : Int)
    (scores : List (Int × Int)) (E : Int)
    (hf : ∀ k r, env.fetchAt k = some r → selfId ∈ r.attests) :
    ∀ (fuel : Nat) (s : AttestorState),
      (∀ r, s.cache = some r → selfId ∈ r.attests) →
      (attestorLoop env selfId scores E fuel s).final.attests = s.attests := by
  intro fuel
  induction fuel with
  | zero =>
    intro s _
    rfl
  | succ fuel ih =>
    intro s hinv
    cases hc : s.cache with
    | none =>
      simp only [attestorLoop, hc]
      split
      · rfl
      · split
        · rfl
        · split
          · refine ih _ ?_
            intro r hr
            dsimp only at hr
            exact hf _ _ hr
          · next r heq =>
            have hmem : selfId ∈ r.attests := hf _ _ heq
            split
            · split
              · rfl
              · split
                · rfl
                · next hdid => exact absurd hmem (by simpa [did_node_attest] using hdid)
            · rfl
    | some r =>
      simp only [attestorLoop, hc]
      have hmem : selfId ∈ r.attests := hinv r hc
      split
      · rfl
      · split
        · rfl
        · split
          · split
            · rfl
            · split
              · rfl
              · next hdid => exact absurd hmem (by simpa [did_node_attest] using hdid)
          · rfl

/-- While there is no consensus-data record and the cut-off test fails on
every turn, the loop never exits early: it fetches, sleeps and polls again
each turn until the fuel (the epoch's block budget) is spent, and submits
nothing. -/
theorem attestor_waits_without_data (env : AttestorEnv) (selfId : Int)
    (scores : List (Int × Int)) (E : Int)
    (hstop : ∀ k, env.stopAt k = false)
    (hfetch : ∀ k, env.fetchAt k = none)
    (hcut : ∀ k, attestorCutoff E (env.epochAt k) (env.pctAt k) = false) :
    ∀ (fuel : Nat) (s : AttestorState), s.cache = none →
      (attestorLoop env selfId scores E fuel s).reason = AttestorExit.fuelOut ∧
      (attestorLoop env selfId scores E fuel s).final.attests = s.attests ∧
      (attestorLoop env selfId scores E fuel s).final.sleeps = s.sleeps + fuel := by
  intro fuel
  induction fuel with
  | zero =>
    intro s h
    exact ⟨rfl, rfl, rfl⟩
  | succ fuel ih =>
    intro s h
    simp only [attestorLoop, h, hstop, hfetch, hcut, Bool.false_eq_true, if_false]
    refine ⟨(ih _ rfl).1, (ih _ rfl).2.1, ?_⟩
    rw [(ih _ rfl).2.2]
    dsimp only
    omega

/-- Poll environment for the failing input of the validator poll loop:
the stop flag is never set, the epoch stays at 5, the first
`get_rewards_validator` call returns null and every later one returns the
elected validator id 7. -/
def c1PollEnv : PollEnv :=
  ⟨fun _ => false, fun k => if k = 0 then PyVal.none else PyVal.int 7, fun _ => 5⟩

/-- A full iteration environment around `c1PollEnv`. -/
def c1Env : ConsensusEnv :=
  ⟨true, [], fun _ => [], c1PollEnv, none, quietAttestorEnv⟩

/-- C2. For every epoch, the attestor iteration submits at most one
`attest` beyond the retries its own failed receipts license: submissions
never exceed failed receipts plus one; when every receipt reports success
at most one `attest` is issued in the epoch; and when the fetched on-chain
state already lists this node among the attestors (restart or reconnect
within the epoch) no `attest` is issued at all. -/
theorem c2_attest_at_most_once (env : AttestorEnv) (selfId : Int)
    (scores : List (Int × Int)) (E : Int) (fuel : Nat) :
    (attestorLoop env selfId scores E fuel attestorInit).final.attests ≤
      (attestorLoop env selfId scores E fuel attestorInit).final.fails + 1 ∧
    ((∀ k, env.receiptAt k = true) →
      (attestorLoop env selfId scores E fuel attestorInit).final.attests ≤ 1) ∧
    ((∀ k r, env.fetchAt k = some r → selfId ∈ r.attests) →
      (attestorLoop env selfId scores E fuel attestorInit).final.attests = 0) := by
  refine ⟨attestor_retry_bound env selfId scores E fuel attestorInit rfl, ?_, ?_⟩
  · intro hr
    exact attestor_success_bound env selfId scores E hr fuel attestorInit
  · intro hf
    exact attestor_skip_when_attested env selfId scores E hf fuel attestorInit
      (fun r hr => by simp [attestorInit] at hr)

/-- Record whose `attests` field already contains node 1. -/
def c2Rec : ConsensusRecord := ⟨9, [], [1]⟩

/-- Environment in which the chain always returns `c2Rec` and every receipt
succeeds. -/
def c2Env : AttestorEnv :=
  ⟨fun _ => false, fun _ => some c2Rec, fun _ => 5, fun _ => 0, true, fun _ => true, false⟩

/-- Witness for C2 at a concrete environment. -/
theorem c2_attest_at_most_once_witness :
    (attestorLoop c2Env 1 [] 5 3 attestorInit).final.attests ≤
      (attestorLoop c2Env 1 [] 5 3 attestorInit).final.fails + 1 ∧
    (attestorLoop c2Env 1 [] 5 3 attestorInit).final.attests ≤ 1 ∧
    (attestorLoop c2Env 1 [] 5 3 attestorInit).final.attests = 0 := by
  have h := c2_attest_at_most_once c2Env 1 [] 5 3
  refine ⟨h.1, h.2.1 fun k => rfl, h.2.2 fun k r hr => ?_⟩
  have hr2 : c2Rec = r := Option.some.inj hr
  rw [← hr2]
  decide

/-- C6. While the attestor waits for consensus data, the loop exits early
only on an epoch rollover or on `percent_complete > 0.15`, strictly:
the cut-off test is false at exactly `0.15`, and with the observed fraction
pinned to exactly `0.15` in an unchanged epoch the loop keeps sleeping and
re-polling every turn for its whole block budget, with no early exit and no
on-chain write. -/
theorem c6_cutoff_is_strict (env : AttestorEnv) (selfId : Int)
    (scores : List (Int × Int)) (E : Int) (fuel : Nat)
    (hstop : ∀ k, env.stopAt k = false)
    (hfetch : ∀ k, env.fetchAt k = none)
    (hepoch : ∀ k, env.epochAt k = E)
    (hpct : ∀ k, env.pctAt k = 15 / 100) :
    attestorCutoff E E (15 / 100) = false ∧
    (attestorLoop env selfId scores E fuel attestorInit).reason = AttestorExit.fuelOut ∧
    (attestorLoop env selfId scores E fuel attestorInit).final.sleeps = fuel ∧
    (attestorLoop env selfId scores E fuel attestorInit).final.attests = 0 := by
  have hc : attestorCutoff E E (15 / 100) = false := by
    simp [attestorCutoff]
  have hcut : ∀ k, attestorCutoff E (env.epochAt k) (env.pctAt k) = false := by
    intro k
    rw [hepoch, hpct]
    exact hc
  have h := attestor_waits_without_data env selfId scores E hstop hfetch hcut fuel attestorInit rfl
  exact ⟨hc, h.1, by simpa [attestorInit] using h.2.2, h.2.1⟩

/-- Witness for C6 at a concrete environment sitting exactly on the
cut-off. -/
theorem c6_cutoff_is_strict_witness :
    attestorCutoff 5 5 (15 / 100) = false ∧
    (attestorLoop quietAttestorEnv 1 [] 5 7 attestorInit).reason = AttestorExit.fuelOut ∧
    (attestorLoop quietAttestorEnv 1 [] 5 7 attestorInit).final.sleeps = 7 ∧
    (attestorLoop quietAttestorEnv 1 [] 5 7 attestorInit).final.attests = 0 :=
  c6_cutoff_is_strict quietAttestorEnv 1 [] 5 7
    (fun _ => rfl) (fun _ => rfl) (fun _ => rfl) (fun _ => rfl)

/-- C9. Within a single attestor iteration the consensus-data record is
fetched only while the locally cached copy is `None`; once a record is
cached it is never refetched and never changes, so the already-attested
membership check of every later turn — including the turns after this
node's own `attest` call — is evaluated against the snapshot taken before
that call. -/
theorem c9_consensus_record_write_once (env : AttestorEnv) (selfId : Int)
    (scores : List (Int × Int)) (E : Int) (fuel : Nat) (s : AttestorState)
    (r : ConsensusRecord) (h : s.cache = some r) :
    (attestorLoop env selfId scores E fuel s).final.cache = some r ∧
    (attestorLoop env selfId scores E fuel s).final.fetches = s.fetches :=
  attestor_cache_stable env selfId scores E fuel s r h

/-- A cached record for the C9 witness. -/
def c9Rec : ConsensusRecord := ⟨9, [(1, 5)], []⟩

/-- A loop state that already holds `c9Rec` after two fetches. -/
def c9State : AttestorState := ⟨some c9Rec, 2, false, 0, 0, 0, 0⟩

/-- Witness for C9 at a concrete environment and state. -/
theorem c9_consensus_record_write_once_witness :
    (attestorLoop quietAttestorEnv 1 [] 5 4 c9State).final.cache = some c9Rec ∧
    (attestorLoop quietAttestorEnv 1 [] 5 4 c9State).final.fetches = 2 :=
  c9_consensus_record_write_once quietAttestorEnv 1 [] 5 4 c9State c9Rec rfl

/-- C1. In the S2 running loop, for every epoch E, while
`get_rewards_validator(subnet_id, E)` returns null and the epoch has not
rolled over, the engine is claimed to sleep `BLOCK_SECS` and poll again,
abandoning the iteration only on rollover. The code does not do this: the
break condition `validator is not None or validator != "None"` (line 351)
is a tautology, so on the failing input — first poll null, epoch unchanged
— the loop exits after exactly one poll with zero sleeps, and the iteration
returns having performed no on-chain write, even though the very next poll
would have returned the elected validator. -/
theorem c1_poll_gives_up_after_single_null :
    pollValidator c1PollEnv 5 10 0 0 PyVal.none = ⟨PyVal.none, 1, 0⟩ ∧
    validatorPollBreak PyVal.none = true ∧
    c1PollEnv.validatorAt 1 = PyVal.int 7 ∧
    runConsensus c1Env 1 5 10 = ConsensusAction.aborted := by
  refine ⟨rfl, rfl, rfl, rfl⟩

/-- Environment for the C4 counterexample: epochs 0,1,2,3 each observe
`NotFound`; from epoch 4 onward the subnet is found Active. -/
def c4EnvCounter : Nat → Int × SubnetInfoRes :=
  fun k => ((k : Int), if k < 4 then SubnetInfoRes.notFound else SubnetInfoRes.found "Active")

/-- C4 counterexample. The claim says four consecutive `NotFound` results
during S0 cause a clean shutdown. On the code they do not: after four
`NotFound` epochs in a row the loop is still running (the counter check is
`errors_count > max_errors` against the count of previous failures), and
here it goes on to observe an Active subnet and exits with success and
`errors_count = 4`. -/
theorem c4_four_notfound_do_not_shut_down :
    activateLoop c4EnvCounter 10 0 none 0 = (ActivateOutcome.active, 4) := by
  decide

/-- C4 (amended). During S0 the engine shuts down only at the fifth
`NotFound` epoch: a `NotFound` observed with `errors_count > 3` previous
failures triggers shutdown, so five `NotFound` epochs in a row end in
`shutdown` with the counter at 4; and the counter is never reset — the
final count is always at least the entering count, whatever the
intervening observations. -/
theorem c4_shutdown_after_five_notfound :
    (∀ env : Nat → Int × SubnetInfoRes,
      env 0 = (0, SubnetInfoRes.notFound) → env 1 = (1, SubnetInfoRes.notFound) →
      env 2 = (2, SubnetInfoRes.notFound) → env 3 = (3, SubnetInfoRes.notFound) →
      env 4 = (4, SubnetInfoRes.notFound) →
      activateLoop env 5 0 none 0 = (ActivateOutcome.shutdown, 4)) ∧
    (∀ (env : Nat → Int × SubnetInfoRes) (fuel turn : Nat) (lastE : Option Int) (errs : Nat),
      errs ≤ (activateLoop env fuel turn lastE errs).2) := by
  constructor
  · intro env h0 h1 h2 h3 h4
    simp [activateLoop, h0, h1, h2, h3, h4, maxErrors]
  · intro env fuel
    induction fuel with
    | zero =>
      intro turn lastE errs
      exact le_rfl
    | succ fuel ih =>
      intro turn lastE errs
      simp only [activateLoop]
      split
      · split
        · split
          · exact le_rfl
          · exact le_trans (Nat.le_succ errs) (ih _ _ _)
        · split
          · exact le_rfl
          · exact ih _ _ _
      · exact ih _ _ _

/-- Environment of five straight `NotFound` epochs. -/
def c4EnvFive : Nat → Int × SubnetInfoRes :=
  fun k => ((k : Int), SubnetInfoRes.notFound)

/-- Witness for the amended C4 at concrete environments. -/
theorem c4_shutdown_after_five_notfound_witness :
    activateLoop c4EnvFive 5 0 none 0 = (ActivateOutcome.shutdown, 4) ∧
    2 ≤ (activateLoop c4EnvFive 9 0 none 2).2 :=
  ⟨c4_shutdown_after_five_notfound.1 c4EnvFive rfl rfl rfl rfl rfl,
   c4_shutdown_after_five_notfound.2 c4EnvFive 9 0 none 2⟩

/-- Membership after a dict assignment: the element is the assigned pair or
was already present. -/
theorem mem_dictSet {m : NodesMap} {k : Int} {v : List SubnetNodeInfo}
    {q : Int × List SubnetNodeInfo} (h : q ∈ dictSet m k v) :
    q = (k, v) ∨ q ∈ m := by
  unfold dictSet at h
  split at h
  · rcases List.mem_map.mp h with ⟨p, hp, he⟩
    by_cases hk : p.1 = k
    · rw [if_pos hk] at he
      exact Or.inl he.symm
    · rw [if_neg hk] at he
      exact Or.inr (he ▸ hp)
  · rcases List.mem_append.mp h with hm | hone
    · exact Or.inr hm
    · exact Or.inl (List.mem_singleton.mp hone)

/-- Membership after a dict pop: still present, with a different key. -/
theorem mem_dictPop {m : NodesMap} {k : Int} {q : Int × List SubnetNodeInfo}
    (h : q ∈ dictPop m k) : q ∈ m ∧ ¬ q.1 = k := by
  unfold dictPop at h
  have hf := List.mem_filter.mp h
  refine ⟨hf.1, ?_⟩
  simpa using hf.2

/-- A successful dict lookup exhibits a member with that key. -/
theorem dictGet_mem {m : NodesMap} {k : Int} {v : List SubnetNodeInfo}
    (h : dictGet m k = some v) : (k, v) ∈ m := by
  unfold dictGet at h
  split at h
  next pr hpr =>
    have hmem := List.mem_of_find?_eq_some hpr
    have hd := List.find?_some hpr
    have hk : pr.1 = k := of_decide_eq_true hd
    cases h
    rw [← hk]
    simpa using hmem
  next =>
    cases h

/-- A failed dict lookup excludes every pair with that key. -/
theorem dictGet_none {m : NodesMap} {k : Int} (h : dictGet m k = none) :
    ∀ v, (k, v) ∉ m := by
  intro v hv
  unfold dictGet at h
  split at h
  next p hp =>
    cases h
  next hfind =>
    have := List.find?_eq_none.mp hfind _ hv
    simp at this

/-- Core of the amended C5: with every pair of the map either freshly
written at the cached epoch or at least two epochs young with a non-empty
snapshot, the eviction step leaves only keys at least one epoch young. -/
theorem update_nodes_evict_aux (epoch : Int) (m1 : NodesMap)
    (hm1 : ∀ p ∈ m1, p.1 = epoch ∨ (epoch ≤ p.1 + 2 ∧ p.2 ≠ [])) :
    ∀ q ∈ (match dictGet m1 (epoch - 2) with
            | some ns => if ns.length > 0 then dictPop m1 (epoch - 2) else m1
            | none => m1), epoch ≤ q.1 + 1 := by
  intro q hq
  rcases hg : dictGet m1 (epoch - 2) with _ | ns
  · rw [hg] at hq
    rcases hm1 q hq with h1 | h2
    · omega
    · have hne : ¬ q.1 = epoch - 2 := by
        intro hk
        have hnot := dictGet_none hg q.2
        rw [← hk] at hnot
        exact hnot (by simpa using hq)
      omega
  · rw [hg] at hq
    by_cases hl : ns.length > 0
    · have hq2 : q ∈ dictPop m1 (epoch - 2) := by simpa [hl] using hq
      have hp := mem_dictPop hq2
      rcases hm1 q hp.1 with h1 | h2
      · omega
      · have := hp.2
        omega
    · have hmem := dictGet_mem hg
      rcases hm1 _ hmem with h1 | h2
      · dsimp only at h1
        omega
      · have hnil : ns = [] := by
          cases ns with
          | nil => rfl
          | cons a t => simp at hl
        exact absurd hnil h2.2

/-- C5 counterexample. The claim says no key older than the cached epoch
minus one survives a refresh. On the code, a refresh at cached epoch 3 pops
only the entry at epoch 1; a stale entry at epoch 0 — left over after a
skipped refresh — survives, and `0 < 3 - 1`. -/
def c5Node : SubnetNodeInfo := ⟨1, "p1", NodeClass.Included, 0⟩

/-- The concrete stale-entry run for C5. -/
theorem c5_stale_entry_survives_refresh :
    ((0 : Int), [c5Node]) ∈ update_nodes 3 (some [c5Node]) [((0 : Int), [c5Node])] ∧
    ¬ ((3 : Int) - 1 ≤ 0) := by
  decide

/-- C5 (amended). `update_nodes` at cached epoch E evicts exactly the entry
two epochs back: provided every entry present before the refresh is at most
two epochs old (with a non-empty snapshot, as every inserted snapshot is),
every key after the refresh is at least E − 1. Entries older than E − 2 are
outside the eviction's reach and would survive. -/
theorem c5_refresh_keeps_last_two_epochs (epoch : Int)
    (fetched : Option (List SubnetNodeInfo)) (m : NodesMap)
    (hm : ∀ p ∈ m, epoch ≤ p.1 + 2 ∧ p.2 ≠ []) :
    ∀ q ∈ update_nodes epoch fetched m, epoch ≤ q.1 + 1 := by
  intro q hq
  unfold update_nodes at hq
  refine update_nodes_evict_aux epoch _ ?_ q hq
  rcases fetched with _ | ns
  · intro p hp
    exact Or.inr (hm p hp)
  · by_cases hl : ns.length > 0
    · intro p hp
      have hp2 : p ∈ dictSet m epoch ns := by simpa [hl] using hp
      rcases mem_dictSet hp2 with he | hm2
      · left
        rw [he]
      · exact Or.inr (hm p hm2)
    · intro p hp
      have hp2 : p ∈ m := by simpa [hl] using hp
      exact Or.inr (hm p hp2)

/-- Witness for the amended C5 at a concrete map and refresh. -/
theorem c5_refresh_keeps_last_two_epochs_witness :
    (3 : Int) ≤ ((3 : Int), [c5Node]).1 + 1 :=
  c5_refresh_keeps_last_two_epochs 3 (some [c5Node]) [((1 : Int), [c5Node])]
    (by decide) ((3 : Int), [c5Node]) (by decide)

/-- C8. For every populated cached snapshot and every requested class and
epoch, `get_nodes` returns exactly the cached nodes whose classification
value is at least the requested class value and whose classification start
epoch is at most the requested epoch, the epoch defaulting to the cached
current epoch when not given. -/
theorem c8_get_nodes_filters_class_and_epoch (c : TrackerCache)
    (ns : List SubnetNodeInfo) (ed : EpochData)
    (h1 : c.nodes = some ns) (h2 : c.epoch_data = some ed)
    (classification : NodeClass) (start_epoch : Option Int) (n : SubnetNodeInfo) :
    n ∈ get_nodes c classification start_epoch ↔
      n ∈ ns ∧ classification.value ≤ n.node_class.value ∧
        n.start_epoch ≤ start_epoch.getD ed.epoch := by
  unfold get_nodes
  rw [h1, h2]
  simp [List.mem_filter, and_assoc]

/-- A cached node for the C8 witness. -/
def c8Node : SubnetNodeInfo := ⟨1, "p1", NodeClass.Included, 2⟩

/-- A populated cache for the C8 witness. -/
def c8Cache : TrackerCache := ⟨some [c8Node], some ⟨5, 0, 0⟩⟩

/-- Witness for C8 at a concrete cache and query. -/
theorem c8_get_nodes_filters_class_and_epoch_witness :
    c8Node ∈ get_nodes c8Cache NodeClass.Idle none ↔
      c8Node ∈ [c8Node] ∧ NodeClass.Idle.value ≤ c8Node.node_class.value ∧
        c8Node.start_epoch ≤ (none : Option Int).getD (5 : Int) :=
  c8_get_nodes_filters_class_and_epoch c8Cache [c8Node] ⟨5, 0, 0⟩ rfl rfl
    NodeClass.Idle none c8Node

/-- The unpopulated cache of the C10 run. -/
def c10Empty : TrackerCache := ⟨none, none⟩

/-- A node the forced refresh surfaces in the C10 run. -/
def c10Node : SubnetNodeInfo := ⟨4, "p4", NodeClass.Validator, 0⟩

/-- The cache state the forced refresh produces in the C10 run. -/
def c10Refreshed : TrackerCache := ⟨some [c10Node], some ⟨6, 0, 0⟩⟩

/-- C10 counterexample. The claim says that with an unpopulated cache
`get_nodes` returns `[]` immediately rather than falling through to an RPC
call. The v3 tracker's `get_nodes` with `force=True` first awaits
`_update_data()` — an RPC refresh — and then reads the refreshed cache:
here it performs one refresh and returns a non-empty list. -/
theorem c10_v3_force_bypasses_empty_cache_guard :
    (get_nodes_v3 c10Empty c10Refreshed NodeClass.Registered none true).rpcRefreshes = 1 ∧
    (get_nodes_v3 c10Empty c10Refreshed NodeClass.Registered none true).nodes ≠ [] := by
  decide

/-- C10 (amended). With an unpopulated cache (`nodes` or `epoch_data` still
`None`), `get_nodes` returns `[]` immediately with no RPC in the v4 tracker
for any `force` value, and in the v3 tracker whenever `force` is not set;
only v3's `force=True` path performs a refresh RPC first. -/
theorem c10_empty_cache_reads_return_empty (c refreshed : TrackerCache)
    (classification : NodeClass) (start_epoch : Option Int)
    (h : c.nodes = none ∨ c.epoch_data = none) :
    (∀ force, get_nodes_v4 c classification start_epoch force
        = ⟨[], 0⟩) ∧
    get_nodes_v3 c refreshed classification start_epoch false = ⟨[], 0⟩ := by
  have hread : get_nodes c classification start_epoch = [] := by
    unfold get_nodes
    rcases hn : c.nodes with _ | ns
    · rcases he : c.epoch_data with _ | ed
      · rfl
      · rfl
    · rcases he : c.epoch_data with _ | ed
      · rfl
      · rcases h with h | h
        · rw [hn] at h
          cases h
        · rw [he] at h
          cases h
  constructor
  · intro force
    unfold get_nodes_v4
    rw [hread]
  · unfold get_nodes_v3
    rw [if_neg (by simp)]
    rw [hread]

/-- Witness for the amended C10 at a concrete empty cache. -/
theorem c10_empty_cache_reads_return_empty_witness :
    get_nodes_v4 c10Empty NodeClass.Registered none true = ⟨[], 0⟩ ∧
    get_nodes_v3 c10Empty c10Refreshed NodeClass.Registered none false = ⟨[], 0⟩ := by
  have h := c10_empty_cache_reads_return_empty c10Empty c10Refreshed
    NodeClass.Registered none (Or.inl rfl)
  exact ⟨h.1 true, h.2⟩
